import Mathlib

/-!
Verification of the parametric panel-assembly generator of this repository
(source files `elements.py` and `compositions.py`).

The embedding below mirrors the source:

* `Value` models a dimension or coordinate that is either a plain Python
  number (`lit`, modelled as a rational) or a symbolic expression
  (`formula`, a sympy expression / expression string).  The Python
  arithmetic operators propagate symbolic-ness: a float combined with a
  float stays a float, and any operand that is a sympy object makes the
  result a sympy expression built from both operands.
* `create_panel` models `elements.create_panel`: it emits one Part Box
  whose `Length`/`Width`/`Height` are the `width`/`thickness`/`height`
  arguments, whose rotation is chosen by the `if/elif` chain on the
  orientation argument, and whose placement base is the given position.
* `create_plinth`, `create_niche` and `create_wardrobe_composition` model
  the composition functions of `compositions.py`; the FreeCAD document is
  modelled as the ordered list of emitted panel descriptors.
* The geometry of an emitted box is recovered exactly over ℚ:
  the two rotations used by the source (`Rotation((0,0,1), 90)` and
  `Rotation((1,0,0), -90)`) are signed axis permutations, so the occupied
  solid of a literal panel is an axis-aligned box.
-/

namespace FreecadPanels

/-- Symbolic expression tree: models the sympy expressions (and expression
strings) that the source passes around for parametric dimensions.  A
qualified parameter reference such as `params.Width` is a `sym` leaf. -/
inductive Expr where
  | sym : String → Expr
  | num : ℚ → Expr
  | add : Expr → Expr → Expr
  | sub : Expr → Expr → Expr
  | mul : Expr → Expr → Expr
  | div : Expr → Expr → Expr
deriving DecidableEq, Inhabited

/-- A dimension/coordinate value in the source: either a plain number
(Python float/int) or a symbolic formula (sympy expression or string). -/
inductive Value where
  | lit : ℚ → Value
  | formula : Expr → Value
deriving DecidableEq, Inhabited

/-- View a value as an expression operand: a literal contributes its
number, a formula contributes its expression. -/
def Value.toExpr : Value → Expr
  | .lit q => .num q
  | .formula e => e

/-- Is this value symbolic?  (Mirrors `isinstance(value, (str, sympy.Basic))`
checks in the source.) -/
def Value.isFormulaB : Value → Bool
  | .lit _ => false
  | .formula _ => true

/-- Python `+` on dimension values: float + float is a float, and if any
operand is a sympy expression the result is the symbolic sum. -/
def Value.add : Value → Value → Value
  | .lit a, .lit b => .lit (a + b)
  | a, b => .formula (Expr.add a.toExpr b.toExpr)

/-- Python `-` on dimension values (see `Value.add`). -/
def Value.sub : Value → Value → Value
  | .lit a, .lit b => .lit (a - b)
  | a, b => .formula (Expr.sub a.toExpr b.toExpr)

/-- Python `*` on dimension values (see `Value.add`). -/
def Value.mul : Value → Value → Value
  | .lit a, .lit b => .lit (a * b)
  | a, b => .formula (Expr.mul a.toExpr b.toExpr)

/-- Python `/` on dimension values (see `Value.add`).  On literals this is
exact rational division; the source only ever divides by the literal 2. -/
def Value.div : Value → Value → Value
  | .lit a, .lit b => .lit (a / b)
  | a, b => .formula (Expr.div a.toExpr b.toExpr)

instance : Add Value := ⟨Value.add⟩
instance : Sub Value := ⟨Value.sub⟩
instance : Mul Value := ⟨Value.mul⟩
instance : Div Value := ⟨Value.div⟩

/-- Serialization of a symbolic expression to the formula string that is
handed to `setExpression` on the sink. -/
def Expr.render : Expr → String
  | .sym s => s
  | .num q => toString q
  | .add a b => "(" ++ a.render ++ " + " ++ b.render ++ ")"
  | .sub a b => "(" ++ a.render ++ " - " ++ b.render ++ ")"
  | .mul a b => "(" ++ a.render ++ " * " ++ b.render ++ ")"
  | .div a b => "(" ++ a.render ++ " / " ++ b.render ++ ")"

/-- The formula string registered with the sink for a symbolic value
(`none` for a literal, which is assigned numerically instead). -/
def Value.formulaString : Value → Option String
  | .lit _ => none
  | .formula e => some e.render

/-- The closed `Orientation` enum of `elements.py`. -/
inductive Orientation where
  | FRONT
  | SIDE
  | TOP
deriving DecidableEq, Inhabited

/-- A Python value passed as the `orientation` argument of `create_panel`.
Python is dynamically typed, so besides the three enum members any other
object can be supplied; `nonMember s` stands for such a foreign value
(identified by its textual representation).  Comparing a foreign value
with an enum member by `==` yields `False` in Python. -/
inductive OrientArg where
  | member : Orientation → OrientArg
  | nonMember : String → OrientArg
deriving DecidableEq, Inhabited

/-- The rotation actually stored on the emitted Part Box placement. -/
inductive Rot where
  | identity
  | rotZ90
  | rotXneg90
deriving DecidableEq, Inhabited

/-- The `if orientation == FRONT / elif SIDE / elif TOP` chain of
`create_panel`.  There is no `else` branch: any argument that is none of
the three enum members leaves the initial identity rotation in place. -/
def rotationFor : OrientArg → Rot
  | .member .FRONT => .identity
  | .member .SIDE => .rotZ90
  | .member .TOP => .rotXneg90
  | .nonMember _ => .identity

/-- Descriptor of one emitted Part Box: the object name, the three box
dimensions (`Length` is set from the `width` argument, `Width` from the
`thickness` argument, `Height` from the `height` argument), the placement
rotation and the placement base position. -/
structure PanelDesc where
  name : String
  length : Value
  width : Value
  height : Value
  rot : Rot
  pos : Value × Value × Value
deriving DecidableEq, Inhabited

/-- `elements.create_panel doc width height thickness orientation position
name`: emits exactly one box with `Length := width`, `Width := thickness`,
`Height := height`, rotation per `rotationFor` and base per `position`. -/
def create_panel (width height thickness : Value) (orientation : OrientArg)
    (position : Value × Value × Value) (name : String) : PanelDesc :=
  { name := name
    length := width
    width := thickness
    height := height
    rot := rotationFor orientation
    pos := position }

/-- The process-wide constant `VARSET_NAME = "params"` of `elements.py`. -/
def VARSET_NAME : String := "params"

/-- `elements.var name`: a sympy symbol for the qualified reference
`"{VARSET_NAME}.{name}"`.  There is no namespace argument. -/
def var (name : String) : Value :=
  .formula (.sym (VARSET_NAME ++ "." ++ name))

/-- The `App::VarSet` object created by `create_varset`: its document name
and its ordered property assignments. -/
structure VarSet where
  name : String
  props : List (String × ℚ)
deriving DecidableEq, Inhabited

/-- `elements.create_varset doc kwargs`: always creates the container
under the fixed name `VARSET_NAME`, then adds one property per keyword. -/
def create_varset (kwargs : List (String × ℚ)) : VarSet :=
  { name := VARSET_NAME, props := kwargs }

/-- `compositions.create_plinth`: emits front, back, left, right panels
(in this order) with the derived effective and inner dimensions. -/
def create_plinth (height width depth thickness : Value)
    (position : Value × Value × Value)
    (offset_front offset_back offset_left offset_right : Value)
    (name : String) : List PanelDesc :=
  let eff_width := width - offset_left - offset_right
  let eff_depth := depth - offset_front - offset_back
  let inner_depth := eff_depth - Value.lit 2 * thickness
  let ref_x := position.1
  let ref_y := position.2.1
  let z_pos := position.2.2
  let start_x := ref_x + offset_left
  let start_y := ref_y + offset_front
  [ create_panel eff_width height thickness (.member .FRONT)
      (start_x, start_y, z_pos) (name ++ "_front"),
    create_panel eff_width height thickness (.member .FRONT)
      (start_x, start_y + eff_depth - thickness, z_pos) (name ++ "_back"),
    create_panel inner_depth height thickness (.member .SIDE)
      (start_x + thickness, start_y + thickness, z_pos) (name ++ "_left"),
    create_panel inner_depth height thickness (.member .SIDE)
      (start_x + eff_width, start_y + thickness, z_pos) (name ++ "_right") ]

/-- `compositions.create_niche`: emits left, right, base, top panels (in
this order) and then the back panel(s) selected by `back_ratio`
(`> 0.001` gates any back at all, `>= 0.999` selects the single full
back, otherwise two symmetric strips, top strip emitted first). -/
def create_niche (height width depth thickness : Value)
    (position : Value × Value × Value) (name : String)
    (back_ratio : ℚ) : List PanelDesc :=
  let inner_height := height - Value.lit 2 * thickness
  let x_pos := position.1
  let y_pos := position.2.1
  let z_pos := position.2.2
  [ create_panel depth inner_height thickness (.member .SIDE)
      (x_pos + thickness, y_pos, z_pos + thickness) (name ++ "_left"),
    create_panel depth inner_height thickness (.member .SIDE)
      (x_pos + width, y_pos, z_pos + thickness) (name ++ "_right"),
    create_panel width depth thickness (.member .TOP)
      (x_pos, y_pos, z_pos + thickness) (name ++ "_base"),
    create_panel width depth thickness (.member .TOP)
      (x_pos, y_pos, z_pos + height) (name ++ "_top") ]
  ++
  (if (1/1000 : ℚ) < back_ratio then
    if (999/1000 : ℚ) ≤ back_ratio then
      [ create_panel (width - Value.lit 2 * thickness) inner_height thickness
          (.member .FRONT)
          (x_pos + thickness, y_pos + depth - thickness, z_pos + thickness)
          (name ++ "_back") ]
    else
      let strip_height := Value.lit back_ratio * inner_height / Value.lit 2
      [ create_panel (width - Value.lit 2 * thickness) strip_height thickness
          (.member .FRONT)
          (x_pos + thickness, y_pos + depth - thickness,
            z_pos + height - thickness - strip_height)
          (name ++ "_back_top"),
        create_panel (width - Value.lit 2 * thickness) strip_height thickness
          (.member .FRONT)
          (x_pos + thickness, y_pos + depth - thickness, z_pos + thickness)
          (name ++ "_back_bottom") ]
  else [])

/-- `compositions.create_wardrobe_composition`: one shared VarSet, a
plinth at the origin with the four 20 mm offsets, and a full-back niche
stacked at `z = Plinth_Height`, all driven by `params.*` references. -/
def create_wardrobe_composition : VarSet × List PanelDesc :=
  let vs := create_varset
    [("Width", 800), ("Depth", 300), ("Thickness", 15),
     ("Plinth_Height", 150), ("Niche_Height", 500),
     ("Plinth_Offset_Front", 20), ("Plinth_Offset_Back", 20),
     ("Plinth_Offset_Left", 20), ("Plinth_Offset_Right", 20)]
  let W := var "Width"
  let D := var "Depth"
  let T := var "Thickness"
  let H_P := var "Plinth_Height"
  let H_N := var "Niche_Height"
  let Off_F := var "Plinth_Offset_Front"
  let Off_B := var "Plinth_Offset_Back"
  let Off_L := var "Plinth_Offset_Left"
  let Off_R := var "Plinth_Offset_Right"
  (vs,
    create_plinth H_P W D T (Value.lit 0, Value.lit 0, Value.lit 0)
      Off_F Off_B Off_L Off_R "plinth"
    ++ create_niche H_N W D T (Value.lit 0, Value.lit 0, H_P) "niche" 1)

/-- Numeric value the placement base receives from `create_panel`'s local
`resolve` helper: a literal is used as is, a formula gets the `0.0` dummy
(the real binding is registered as an expression). -/
def litVal : Value → ℚ
  | .lit q => q
  | .formula _ => 0

/-- Action of the stored rotation on a point, exact over ℚ because both
rotations used by the source are quarter turns:
`Rotation((0,0,1), 90)` maps `(a,b,c)` to `(-b,a,c)` and
`Rotation((1,0,0), -90)` maps `(a,b,c)` to `(a,c,-b)`. -/
def rotApply : Rot → ℚ × ℚ × ℚ → ℚ × ℚ × ℚ
  | .identity, v => v
  | .rotZ90, (a, b, c) => (-b, a, c)
  | .rotXneg90, (a, b, c) => (a, c, -b)

/-- The point set occupied by the emitted solid of a panel with literal
data: the image of the local box `[0,Length]×[0,Width]×[0,Height]` under
the placement rotation followed by the translation to the base point. -/
def PanelDesc.occupies (pd : PanelDesc) (p : ℚ × ℚ × ℚ) : Prop :=
  ∃ a b c : ℚ,
    0 ≤ a ∧ a ≤ litVal pd.length ∧
    0 ≤ b ∧ b ≤ litVal pd.width ∧
    0 ≤ c ∧ c ≤ litVal pd.height ∧
    p.1 = litVal pd.pos.1 + (rotApply pd.rot (a, b, c)).1 ∧
    p.2.1 = litVal pd.pos.2.1 + (rotApply pd.rot (a, b, c)).2.1 ∧
    p.2.2 = litVal pd.pos.2.2 + (rotApply pd.rot (a, b, c)).2.2

/-- An axis-aligned box given by its six face coordinates. -/
structure AABB where
  xlo : ℚ
  xhi : ℚ
  ylo : ℚ
  yhi : ℚ
  zlo : ℚ
  zhi : ℚ
deriving DecidableEq, Inhabited

/-- Membership in an axis-aligned box. -/
def AABB.mem (A : AABB) (p : ℚ × ℚ × ℚ) : Prop :=
  A.xlo ≤ p.1 ∧ p.1 ≤ A.xhi ∧
  A.ylo ≤ p.2.1 ∧ p.2.1 ≤ A.yhi ∧
  A.zlo ≤ p.2.2 ∧ p.2.2 ≤ A.zhi

/-- The axis-aligned bounding box of a panel's occupied solid: since both
quarter-turn rotations are signed axis permutations, the rotated box is
again axis-aligned, with the thickness folded toward negative X for the
`rotZ90` (SIDE) case and toward negative Z for the `rotXneg90` (TOP)
case. -/
def panelAABB (pd : PanelDesc) : AABB :=
  let x := litVal pd.pos.1
  let y := litVal pd.pos.2.1
  let z := litVal pd.pos.2.2
  let L := litVal pd.length
  let W := litVal pd.width
  let H := litVal pd.height
  match pd.rot with
  | .identity => ⟨x, x + L, y, y + W, z, z + H⟩
  | .rotZ90 => ⟨x - W, x, y, y + L, z, z + H⟩
  | .rotXneg90 => ⟨x, x + L, y, y + H, z - W, z⟩

/-- Two axis-aligned boxes share positive volume exactly when their
interval projections overlap with positive length on every axis; panels
that merely abut along a face do not overlap in this sense. -/
def AABB.overlaps (A B : AABB) : Prop :=
  max A.xlo B.xlo < min A.xhi B.xhi ∧
  max A.ylo B.ylo < min A.yhi B.yhi ∧
  max A.zlo B.zlo < min A.zhi B.zhi

instance (A B : AABB) : Decidable (A.overlaps B) := by
  unfold AABB.overlaps
  infer_instance

/-- Pairwise absence of shared volume among the emitted panels. -/
def no_volume_overlap (ps : List PanelDesc) : Prop :=
  List.Pairwise (fun A B => ¬ AABB.overlaps (panelAABB A) (panelAABB B)) ps

instance (ps : List PanelDesc) : Decidable (no_volume_overlap ps) := by
  unfold no_volume_overlap
  exact List.instDecidablePairwise ps

/-- The invariant claimed for nominal compositions: the plinth's four
panels and the niche's panels (for any back-ratio branch) occupy pairwise
non-overlapping volumes, and each sandwiched panel fits exactly between
the inner faces of the two dominant panels bounding it along its
constrained axis (the plinth's left/right between front and back along Y,
the niche's left/right between base and top along Z). -/
def plinth_niche_fit (Hp H W D T x0 y0 z0 r : ℚ) (n1 n2 : String) : Prop :=
  no_volume_overlap (create_plinth (.lit Hp) (.lit W) (.lit D) (.lit T)
    (.lit x0, .lit y0, .lit z0) (.lit 0) (.lit 0) (.lit 0) (.lit 0) n1) ∧
  no_volume_overlap (create_niche (.lit H) (.lit W) (.lit D) (.lit T)
    (.lit x0, .lit y0, .lit z0) n2 r) ∧
  (∃ Af Ab Al Ar : AABB,
    (create_plinth (.lit Hp) (.lit W) (.lit D) (.lit T)
        (.lit x0, .lit y0, .lit z0) (.lit 0) (.lit 0) (.lit 0) (.lit 0)
        n1).map panelAABB = [Af, Ab, Al, Ar] ∧
    Al.ylo = Af.yhi ∧ Al.yhi = Ab.ylo ∧ Ar.ylo = Af.yhi ∧ Ar.yhi = Ab.ylo) ∧
  (∃ Al Ar Ab At : AABB,
    ((create_niche (.lit H) (.lit W) (.lit D) (.lit T)
        (.lit x0, .lit y0, .lit z0) n2 r).take 4).map panelAABB =
      [Al, Ar, Ab, At] ∧
    Al.zlo = Ab.zhi ∧ Al.zhi = At.zlo ∧ Ar.zlo = Ab.zhi ∧ Ar.zhi = At.zlo)

/-! ### Helper lemmas -/

theorem not_overlaps_of_le_x {A B : AABB} (h : A.xhi ≤ B.xlo) :
    ¬ A.overlaps B := by
  rintro ⟨hx, _, _⟩
  exact absurd (lt_of_le_of_lt (le_max_right _ _)
    (lt_of_lt_of_le hx (min_le_left _ _))) (not_lt.mpr h)

theorem not_overlaps_of_le_x2 {A B : AABB} (h : B.xhi ≤ A.xlo) :
    ¬ A.overlaps B := by
  rintro ⟨hx, _, _⟩
  exact absurd (lt_of_le_of_lt (le_max_left _ _)
    (lt_of_lt_of_le hx (min_le_right _ _))) (not_lt.mpr h)

theorem not_overlaps_of_le_y {A B : AABB} (h : A.yhi ≤ B.ylo) :
    ¬ A.overlaps B := by
  rintro ⟨_, hy, _⟩
  exact absurd (lt_of_le_of_lt (le_max_right _ _)
    (lt_of_lt_of_le hy (min_le_left _ _))) (not_lt.mpr h)

theorem not_overlaps_of_le_y2 {A B : AABB} (h : B.yhi ≤ A.ylo) :
    ¬ A.overlaps B := by
  rintro ⟨_, hy, _⟩
  exact absurd (lt_of_le_of_lt (le_max_left _ _)
    (lt_of_lt_of_le hy (min_le_right _ _))) (not_lt.mpr h)

theorem not_overlaps_of_le_z {A B : AABB} (h : A.zhi ≤ B.zlo) :
    ¬ A.overlaps B := by
  rintro ⟨_, _, hz⟩
  exact absurd (lt_of_le_of_lt (le_max_right _ _)
    (lt_of_lt_of_le hz (min_le_left _ _))) (not_lt.mpr h)

theorem not_overlaps_of_le_z2 {A B : AABB} (h : B.zhi ≤ A.zlo) :
    ¬ A.overlaps B := by
  rintro ⟨_, _, hz⟩
  exact absurd (lt_of_le_of_lt (le_max_left _ _)
    (lt_of_lt_of_le hz (min_le_right _ _))) (not_lt.mpr h)

@[simp] theorem lit_add (a b : ℚ) :
    Value.lit a + Value.lit b = Value.lit (a + b) := rfl

@[simp] theorem lit_sub (a b : ℚ) :
    Value.lit a - Value.lit b = Value.lit (a - b) := rfl

@[simp] theorem lit_mul (a b : ℚ) :
    Value.lit a * Value.lit b = Value.lit (a * b) := rfl

@[simp] theorem lit_div (a b : ℚ) :
    Value.lit a / Value.lit b = Value.lit (a / b) := rfl

@[simp] theorem litVal_lit (a : ℚ) : litVal (Value.lit a) = a := rfl

/-! ### Claim theorems -/

/-- Claim C2: for every Niche built with literal height H, width W,
depth D, thickness T at position (x0,y0,z0), the first four emitted
panels are exactly: left and right of height H − 2T in SIDE orientation
(rotation +90° about Z) at x = x0+T and x = x0+W, both at z = z0+T; and
base and top in TOP orientation (rotation −90° about X) spanning the full
width W, at z = z0+T and z = z0+H. -/
theorem niche_frame_panels (H W D T x0 y0 z0 r : ℚ) (n : String) :
    (create_niche (.lit H) (.lit W) (.lit D) (.lit T)
        (.lit x0, .lit y0, .lit z0) n r).take 4 =
      [⟨n ++ "_left", .lit D, .lit T, .lit (H - 2*T), .rotZ90,
          (.lit (x0 + T), .lit y0, .lit (z0 + T))⟩,
       ⟨n ++ "_right", .lit D, .lit T, .lit (H - 2*T), .rotZ90,
          (.lit (x0 + W), .lit y0, .lit (z0 + T))⟩,
       ⟨n ++ "_base", .lit W, .lit T, .lit D, .rotXneg90,
          (.lit x0, .lit y0, .lit (z0 + T))⟩,
       ⟨n ++ "_top", .lit W, .lit T, .lit D, .rotXneg90,
          (.lit x0, .lit y0, .lit (z0 + H))⟩] := rfl

/-- Claim C3: for every Plinth built with literal inputs at (x0,y0,z0)
with offsets, writing start_x = x0 + offset_left, start_y = y0 +
offset_front, ew = W − offset_left − offset_right, ed = D − offset_front −
offset_back and inner depth ed − 2T, it emits exactly the four panels
front, back (FRONT orientation, width ew, at y = start_y and y = start_y
+ ed − T) and left, right (SIDE orientation, width ed − 2T, at x =
start_x + T and x = start_x + ew, both at y = start_y + T). -/
theorem plinth_panels (Hp W D T x0 y0 z0 of ob ol orr : ℚ) (n : String) :
    create_plinth (.lit Hp) (.lit W) (.lit D) (.lit T)
        (.lit x0, .lit y0, .lit z0) (.lit of) (.lit ob) (.lit ol) (.lit orr) n =
      [⟨n ++ "_front", .lit (W - ol - orr), .lit T, .lit Hp, .identity,
          (.lit (x0 + ol), .lit (y0 + of), .lit z0)⟩,
       ⟨n ++ "_back", .lit (W - ol - orr), .lit T, .lit Hp, .identity,
          (.lit (x0 + ol), .lit (y0 + of + (D - of - ob) - T), .lit z0)⟩,
       ⟨n ++ "_left", .lit (D - of - ob - 2*T), .lit T, .lit Hp, .rotZ90,
          (.lit (x0 + ol + T), .lit (y0 + of + T), .lit z0)⟩,
       ⟨n ++ "_right", .lit (D - of - ob - 2*T), .lit T, .lit Hp, .rotZ90,
          (.lit (x0 + ol + (W - ol - orr)), .lit (y0 + of + T), .lit z0)⟩] := rfl

/-- Claim C1: for a Niche with literal inputs, writing ih = H − 2T, the
emitted back panels (everything after the four frame panels) are: none
when back_ratio ≤ 0.001; exactly one FRONT-orientation panel of width
W − 2T and height ih at y = y0 + D − T, z = z0 + T when back_ratio ≥
0.999; and exactly two FRONT panels of height (back_ratio·ih)/2 for
0.001 < back_ratio < 0.999, the top one at z = z0 + H − T −
(back_ratio·ih)/2 and the bottom one at z = z0 + T, both of width W − 2T
at y = y0 + D − T. -/
theorem niche_back_panels (H W D T x0 y0 z0 r : ℚ) (n : String) :
    (r ≤ (1/1000 : ℚ) →
      (create_niche (.lit H) (.lit W) (.lit D) (.lit T)
          (.lit x0, .lit y0, .lit z0) n r).drop 4 = []) ∧
    ((999/1000 : ℚ) ≤ r →
      (create_niche (.lit H) (.lit W) (.lit D) (.lit T)
          (.lit x0, .lit y0, .lit z0) n r).drop 4 =
        [⟨n ++ "_back", .lit (W - 2*T), .lit T, .lit (H - 2*T), .identity,
            (.lit (x0 + T), .lit (y0 + D - T), .lit (z0 + T))⟩]) ∧
    ((1/1000 : ℚ) < r → r < (999/1000 : ℚ) →
      (create_niche (.lit H) (.lit W) (.lit D) (.lit T)
          (.lit x0, .lit y0, .lit z0) n r).drop 4 =
        [⟨n ++ "_back_top", .lit (W - 2*T), .lit T, .lit (r * (H - 2*T) / 2),
            .identity,
            (.lit (x0 + T), .lit (y0 + D - T),
             .lit (z0 + H - T - r * (H - 2*T) / 2))⟩,
         ⟨n ++ "_back_bottom", .lit (W - 2*T), .lit T,
            .lit (r * (H - 2*T) / 2), .identity,
            (.lit (x0 + T), .lit (y0 + D - T), .lit (z0 + T))⟩]) := by
  refine ⟨fun h => ?_, fun h => ?_, fun h1 h2 => ?_⟩
  · simp only [create_niche, if_neg (not_lt.mpr h)]
    rfl
  · have h1 : (1/1000 : ℚ) < r := lt_of_lt_of_le (by norm_num) h
    simp only [create_niche, if_pos h1, if_pos h]
    rfl
  · simp only [create_niche, if_pos h1, if_neg (not_le.mpr h2)]
    rfl

/-- Witness for `niche_back_panels` at the boundary and interior inputs
of the spec's P4 property: ratio exactly 0.001 (no back), ratio 1 (single
full back), ratio 0.5 (two strips of height (0.5·470)/2). -/
theorem niche_back_panels_witness :
    ((1/1000 : ℚ) ≤ 1/1000 ∧
      (create_niche (.lit 500) (.lit 800) (.lit 300) (.lit 15)
          (.lit 0, .lit 0, .lit 0) "niche" (1/1000)).drop 4 = []) ∧
    ((999/1000 : ℚ) ≤ 1 ∧
      (create_niche (.lit 500) (.lit 800) (.lit 300) (.lit 15)
          (.lit 0, .lit 0, .lit 0) "niche" 1).drop 4 =
        [⟨"niche" ++ "_back", .lit (800 - 2*15), .lit 15, .lit (500 - 2*15),
            .identity, (.lit (0 + 15), .lit (0 + 300 - 15), .lit (0 + 15))⟩]) ∧
    ((1/1000 : ℚ) < 1/2 ∧ (1/2 : ℚ) < 999/1000 ∧
      (create_niche (.lit 500) (.lit 800) (.lit 300) (.lit 15)
          (.lit 0, .lit 0, .lit 0) "niche" (1/2)).drop 4 =
        [⟨"niche" ++ "_back_top", .lit (800 - 2*15), .lit 15,
            .lit (1/2 * (500 - 2*15) / 2), .identity,
            (.lit (0 + 15), .lit (0 + 300 - 15),
             .lit (0 + 500 - 15 - 1/2 * (500 - 2*15) / 2))⟩,
         ⟨"niche" ++ "_back_bottom", .lit (800 - 2*15), .lit 15,
            .lit (1/2 * (500 - 2*15) / 2), .identity,
            (.lit (0 + 15), .lit (0 + 300 - 15), .lit (0 + 15))⟩]) :=
  ⟨⟨le_refl _,
    (niche_back_panels 500 800 300 15 0 0 0 (1/1000) "niche").1 (le_refl _)⟩,
   ⟨by norm_num,
    (niche_back_panels 500 800 300 15 0 0 0 1 "niche").2.1 (by norm_num)⟩,
   ⟨by norm_num, by norm_num,
    (niche_back_panels 500 800 300 15 0 0 0 (1/2) "niche").2.2
      (by norm_num) (by norm_num)⟩⟩

/-- The occupied solid of a panel is exactly its axis-aligned box: the
two quarter-turn rotations permute the axes (with a sign), so the image
of the local dimension box is the `panelAABB` interval product.  This
holds componentwise with no sign assumption on the dimensions (both sides
are empty when a dimension is negative). -/
theorem mem_panelAABB_iff_occupies (pd : PanelDesc) (p : ℚ × ℚ × ℚ) :
    (panelAABB pd).mem p ↔ pd.occupies p := by
  cases hrot : pd.rot
  · simp only [panelAABB, AABB.mem, PanelDesc.occupies, rotApply, hrot]
    constructor
    · rintro ⟨h1, h2, h3, h4, h5, h6⟩
      exact ⟨p.1 - litVal pd.pos.1, p.2.1 - litVal pd.pos.2.1,
        p.2.2 - litVal pd.pos.2.2,
        by linarith, by linarith, by linarith, by linarith, by linarith,
        by linarith, by ring, by ring, by ring⟩
    · rintro ⟨a, b, c, h0a, ha, h0b, hb, h0c, hc, e1, e2, e3⟩
      rw [e1, e2, e3]
      refine ⟨by linarith, by linarith, by linarith, by linarith,
        by linarith, by linarith⟩
  · simp only [panelAABB, AABB.mem, PanelDesc.occupies, rotApply, hrot]
    constructor
    · rintro ⟨h1, h2, h3, h4, h5, h6⟩
      exact ⟨p.2.1 - litVal pd.pos.2.1, litVal pd.pos.1 - p.1,
        p.2.2 - litVal pd.pos.2.2,
        by linarith, by linarith, by linarith, by linarith, by linarith,
        by linarith, by ring, by ring, by ring⟩
    · rintro ⟨a, b, c, h0a, ha, h0b, hb, h0c, hc, e1, e2, e3⟩
      rw [e1, e2, e3]
      refine ⟨by linarith, by linarith, by linarith, by linarith,
        by linarith, by linarith⟩
  · simp only [panelAABB, AABB.mem, PanelDesc.occupies, rotApply, hrot]
    constructor
    · rintro ⟨h1, h2, h3, h4, h5, h6⟩
      exact ⟨p.1 - litVal pd.pos.1, litVal pd.pos.2.2 - p.2.2,
        p.2.1 - litVal pd.pos.2.1,
        by linarith, by linarith, by linarith, by linarith, by linarith,
        by linarith, by ring, by ring, by ring⟩
    · rintro ⟨a, b, c, h0a, ha, h0b, hb, h0c, hc, e1, e2, e3⟩
      rw [e1, e2, e3]
      refine ⟨by linarith, by linarith, by linarith, by linarith,
        by linarith, by linarith⟩

/-- Claim C4: placement law of `create_panel` for literal dimensions and
position.  A FRONT panel at (x,y,z) occupies [x,x+w]×[y,y+t]×[z,z+h]; a
SIDE panel occupies [x−t,x]×[y,y+w]×[z,z+h], the +90° rotation about Z
folding the thickness toward negative X; a TOP panel occupies
[x,x+w]×[y,y+h]×[z−t,z], the −90° rotation about X folding the thickness
toward negative Z. -/
theorem create_panel_occupies (w h t x y z px py pz : ℚ) (n : String) :
    ((create_panel (.lit w) (.lit h) (.lit t) (.member .FRONT)
        (.lit x, .lit y, .lit z) n).occupies (px, py, pz) ↔
      (x ≤ px ∧ px ≤ x + w ∧ y ≤ py ∧ py ≤ y + t ∧ z ≤ pz ∧ pz ≤ z + h)) ∧
    ((create_panel (.lit w) (.lit h) (.lit t) (.member .SIDE)
        (.lit x, .lit y, .lit z) n).occupies (px, py, pz) ↔
      (x - t ≤ px ∧ px ≤ x ∧ y ≤ py ∧ py ≤ y + w ∧ z ≤ pz ∧ pz ≤ z + h)) ∧
    ((create_panel (.lit w) (.lit h) (.lit t) (.member .TOP)
        (.lit x, .lit y, .lit z) n).occupies (px, py, pz) ↔
      (x ≤ px ∧ px ≤ x + w ∧ y ≤ py ∧ py ≤ y + h ∧ z - t ≤ pz ∧ pz ≤ z)) :=
  ⟨(mem_panelAABB_iff_occupies _ _).symm,
   (mem_panelAABB_iff_occupies _ _).symm,
   (mem_panelAABB_iff_occupies _ _).symm⟩

/-- Claim C5: for any plinth and niche with literal positive inputs whose
derived dimensions are positive (0 < T, 2T < W, 2T < D for the depth,
2T < H for the niche height, 0 < plinth height) and zero offsets, the
emitted panels occupy pairwise non-overlapping volumes (in every
back-ratio branch), and each sandwiched panel's extent along its
constrained axis equals the gap between the inner faces of the two
dominant panels bounding it, with no overlap and no gap. -/
theorem plinth_niche_disjoint_and_fit (Hp H W D T x0 y0 z0 r : ℚ)
    (n1 n2 : String) (hT : 0 < T) (hW : 2*T < W) (hD : 2*T < D)
    (hH : 2*T < H) (hHp : 0 < Hp) (hr : 0 ≤ r) :
    plinth_niche_fit Hp H W D T x0 y0 z0 r n1 n2 := by
  have hih : (0:ℚ) < H - 2*T := by linarith
  refine ⟨?_, ?_, ?_, ?_⟩
  · simp only [no_volume_overlap, create_plinth, create_panel, lit_add,
      lit_sub, lit_mul, rotationFor, panelAABB, litVal, List.pairwise_cons,
      List.forall_mem_cons, List.forall_mem_nil, List.not_mem_nil,
      List.Pairwise.nil, and_true, true_and, false_implies, forall_const]
    refine ⟨⟨?_, ?_, ?_⟩, ⟨?_, ?_⟩, ?_⟩
    · exact not_overlaps_of_le_y (by dsimp only; linarith)
    · exact not_overlaps_of_le_y (by dsimp only; linarith)
    · exact not_overlaps_of_le_y (by dsimp only; linarith)
    · exact not_overlaps_of_le_y2 (by dsimp only; linarith)
    · exact not_overlaps_of_le_y2 (by dsimp only; linarith)
    · exact not_overlaps_of_le_x (by dsimp only; linarith)
  · by_cases h1 : (1/1000 : ℚ) < r
    · by_cases h2 : (999/1000 : ℚ) ≤ r
      · simp only [no_volume_overlap, create_niche, create_panel, lit_add,
          lit_sub, lit_mul, lit_div, rotationFor, panelAABB, litVal,
          if_pos h1, if_pos h2, List.cons_append, List.nil_append,
          List.pairwise_cons, List.forall_mem_cons, List.forall_mem_nil,
          List.not_mem_nil, List.Pairwise.nil, and_true, true_and,
          false_implies, forall_const]
        refine ⟨⟨?_, ?_, ?_, ?_⟩, ⟨?_, ?_, ?_⟩, ⟨?_, ?_⟩, ?_⟩
        · exact not_overlaps_of_le_x (by dsimp only; linarith)
        · exact not_overlaps_of_le_z2 (by dsimp only; linarith)
        · exact not_overlaps_of_le_z (by dsimp only; linarith)
        · exact not_overlaps_of_le_x (by dsimp only; linarith)
        · exact not_overlaps_of_le_z2 (by dsimp only; linarith)
        · exact not_overlaps_of_le_z (by dsimp only; linarith)
        · exact not_overlaps_of_le_x2 (by dsimp only; linarith)
        · exact not_overlaps_of_le_z (by dsimp only; linarith)
        · exact not_overlaps_of_le_z (by dsimp only; linarith)
        · exact not_overlaps_of_le_z2 (by dsimp only; linarith)
      · have hr1 : r < 1 := by
          have := not_le.mp h2
          linarith
        have hkey : r * (H - 2*T) < 1 * (H - 2*T) :=
          mul_lt_mul_of_pos_right hr1 hih
        have hs0 : 0 ≤ r * (H - 2*T) := mul_nonneg hr (le_of_lt hih)
        simp only [no_volume_overlap, create_niche, create_panel, lit_add,
          lit_sub, lit_mul, lit_div, rotationFor, panelAABB, litVal,
          if_pos h1, if_neg h2, List.cons_append, List.nil_append,
          List.pairwise_cons, List.forall_mem_cons, List.forall_mem_nil,
          List.not_mem_nil, List.Pairwise.nil, and_true, true_and,
          false_implies, forall_const]
        refine ⟨⟨?_, ?_, ?_, ?_, ?_⟩, ⟨?_, ?_, ?_, ?_⟩, ⟨?_, ?_, ?_⟩,
          ⟨?_, ?_⟩, ?_⟩
        · exact not_overlaps_of_le_x (by dsimp only; linarith)
        · exact not_overlaps_of_le_z2 (by dsimp only; linarith)
        · exact not_overlaps_of_le_z (by dsimp only; linarith)
        · exact not_overlaps_of_le_x (by dsimp only; linarith)
        · exact not_overlaps_of_le_x (by dsimp only; linarith)
        · exact not_overlaps_of_le_z2 (by dsimp only; linarith)
        · exact not_overlaps_of_le_z (by dsimp only; linarith)
        · exact not_overlaps_of_le_x2 (by dsimp only; linarith)
        · exact not_overlaps_of_le_x2 (by dsimp only; linarith)
        · exact not_overlaps_of_le_z (by dsimp only; linarith)
        · exact not_overlaps_of_le_z (by dsimp only; linarith)
        · exact not_overlaps_of_le_z (by dsimp only; linarith)
        · exact not_overlaps_of_le_z2 (by dsimp only; linarith)
        · exact not_overlaps_of_le_z2 (by dsimp only; linarith)
        · exact not_overlaps_of_le_z2 (by dsimp only; linarith)
    · simp only [no_volume_overlap, create_niche, create_panel, lit_add,
        lit_sub, lit_mul, lit_div, rotationFor, panelAABB, litVal,
        if_neg h1, List.append_nil, List.pairwise_cons,
        List.forall_mem_cons, List.forall_mem_nil, List.not_mem_nil,
        List.Pairwise.nil, and_true, true_and, false_implies, forall_const]
      refine ⟨⟨?_, ?_, ?_⟩, ⟨?_, ?_⟩, ?_⟩
      · exact not_overlaps_of_le_x (by dsimp only; linarith)
      · exact not_overlaps_of_le_z2 (by dsimp only; linarith)
      · exact not_overlaps_of_le_z (by dsimp only; linarith)
      · exact not_overlaps_of_le_z2 (by dsimp only; linarith)
      · exact not_overlaps_of_le_z (by dsimp only; linarith)
      · exact not_overlaps_of_le_z (by dsimp only; linarith)
  · refine ⟨_, _, _, _, rfl, ?_, ?_, ?_, ?_⟩ <;>
      simp only [create_panel, lit_add, lit_sub, lit_mul, lit_div,
        rotationFor, panelAABB, litVal] <;> ring
  · refine ⟨_, _, _, _, rfl, ?_, ?_, ?_, ?_⟩ <;>
      simp only [create_panel, lit_add, lit_sub, lit_mul, lit_div,
        rotationFor, panelAABB, litVal] <;> ring

/-- Witness for `plinth_niche_disjoint_and_fit` at the spec's Scenario C
numbers: plinth 150×800×300, niche 500×800×300, thickness 15, half-open
back panel. -/
theorem plinth_niche_disjoint_and_fit_witness :
    (0 : ℚ) < 15 ∧ (2*15 : ℚ) < 800 ∧ (2*15 : ℚ) < 300 ∧
    (2*15 : ℚ) < 500 ∧ (0 : ℚ) < 150 ∧ (0 : ℚ) ≤ 1/2 ∧
    plinth_niche_fit 150 500 800 300 15 0 0 0 (1/2) "plinth" "niche" :=
  ⟨by norm_num, by norm_num, by norm_num, by norm_num, by norm_num,
   by norm_num,
   plinth_niche_disjoint_and_fit 150 500 800 300 15 0 0 0 (1/2)
     "plinth" "niche" (by norm_num) (by norm_num) (by norm_num)
     (by norm_num) (by norm_num) (by norm_num)⟩

/-- Claim C6: arithmetic over dimension values.  When both operands are
literals the result is the literal ordinary-arithmetic result (for
division, under the Python-side condition that the divisor is nonzero);
when any operand is a formula the result is a formula built as the
textual composition of the operands' expressions, and its registered
string is the composition of the operands' rendered strings. -/
theorem value_arith_propagation (a b : ℚ) (v w : Value) (hb : b ≠ 0)
    (hf : v.isFormulaB = true ∨ w.isFormulaB = true) :
    (Value.lit a + Value.lit b = Value.lit (a + b)) ∧
    (Value.lit a - Value.lit b = Value.lit (a - b)) ∧
    (Value.lit a * Value.lit b = Value.lit (a * b)) ∧
    (Value.lit a / Value.lit b = Value.lit (a / b)) ∧
    (v + w = Value.formula (.add v.toExpr w.toExpr) ∧
      (v + w).formulaString =
        some ("(" ++ v.toExpr.render ++ " + " ++ w.toExpr.render ++ ")")) ∧
    (v - w = Value.formula (.sub v.toExpr w.toExpr) ∧
      (v - w).formulaString =
        some ("(" ++ v.toExpr.render ++ " - " ++ w.toExpr.render ++ ")")) ∧
    (v * w = Value.formula (.mul v.toExpr w.toExpr) ∧
      (v * w).formulaString =
        some ("(" ++ v.toExpr.render ++ " * " ++ w.toExpr.render ++ ")")) ∧
    (v / w = Value.formula (.div v.toExpr w.toExpr) ∧
      (v / w).formulaString =
        some ("(" ++ v.toExpr.render ++ " / " ++ w.toExpr.render ++ ")")) := by
  refine ⟨rfl, rfl, rfl, rfl, ?_, ?_, ?_, ?_⟩ <;>
    (cases v with
     | lit q1 =>
       cases w with
       | lit q2 => simp [Value.isFormulaB] at hf
       | formula e2 => exact ⟨rfl, rfl⟩
     | formula e1 => cases w <;> exact ⟨rfl, rfl⟩)

/-- Witness for `value_arith_propagation`: literals 2 and 3, and the
symbolic operand `params.Width` combined with the literal 5, as in the
derived dimension arithmetic of the compositions. -/
theorem value_arith_propagation_witness :
    ((3 : ℚ) ≠ 0) ∧
    (Value.isFormulaB (var "Width") = true ∨
      Value.isFormulaB (Value.lit 5) = true) ∧
    (var "Width" + Value.lit 5 =
      Value.formula (.add (.sym "params.Width") (.num 5))) :=
  ⟨by norm_num, Or.inl rfl,
   (value_arith_propagation 2 3 (var "Width") (Value.lit 5) (by norm_num)
     (Or.inl rfl)).2.2.2.2.1.1⟩

/-- Claim C7: determinism of the composition functions.  In the
embedding each composition is a pure function of its arguments — the
source reads no input other than its parameters and the process constant
`VARSET_NAME` — so two calls with identical inputs (including identical
VarSet contents for the wardrobe) emit identical ordered sequences of
panel descriptors, field for field. -/
theorem composition_deterministic :
    (∀ (h w d t : Value) (pos : Value × Value × Value)
        (of ob ol orr : Value) (n : String),
      create_plinth h w d t pos of ob ol orr n =
        create_plinth h w d t pos of ob ol orr n) ∧
    (∀ (h w d t : Value) (pos : Value × Value × Value) (n : String) (r : ℚ),
      create_niche h w d t pos n r = create_niche h w d t pos n r) ∧
    create_wardrobe_composition = create_wardrobe_composition :=
  ⟨fun _ _ _ _ _ _ _ _ _ _ => rfl, fun _ _ _ _ _ _ _ => rfl, rfl⟩

/-- Claim C8's counterexample: an orientation argument that is none of
FRONT, SIDE, TOP does not make `create_panel` fail — the call still
emits a panel (the if/elif chain has no else branch, so the initial
identity rotation is kept). -/
theorem unknown_orientation_emits_panel :
    create_panel (.lit 1) (.lit 2) (.lit 3)
        (.nonMember "not_an_orientation") (.lit 4, .lit 5, .lit 6) "P" =
      { name := "P", length := .lit 1, width := .lit 3, height := .lit 2,
        rot := .identity, pos := (.lit 4, .lit 5, .lit 6) } := rfl

/-- Claim C8 amended: `create_panel` raises no `InvalidOrientation`
error.  For every orientation argument outside the closed enum (which is
unreachable through the typed enum itself) the dispatch falls through,
the rotation remains identity, and the emitted panel is identical to the
FRONT-orientation panel. -/
theorem unknown_orientation_falls_through (s : String) (w h t : Value)
    (pos : Value × Value × Value) (n : String) :
    rotationFor (.nonMember s) = Rot.identity ∧
    create_panel w h t (.nonMember s) pos n =
      create_panel w h t (.member .FRONT) pos n :=
  ⟨rfl, rfl⟩

/-- Claim C9: the compositions perform no `NegativeDerivedDimension`
check.  With literal inputs height 100, width 100, depth 20, thickness
15, the derived inner depth computes to 20 − 2·15 = −10 < 0, yet the
plinth still emits all four panels, the left one carrying the negative
derived length, instead of surfacing an error before panel creation. -/
theorem negative_inner_depth_unchecked :
    ∃ front back left right : PanelDesc,
      create_plinth (.lit 100) (.lit 100) (.lit 20) (.lit 15)
          (.lit 0, .lit 0, .lit 0) (.lit 0) (.lit 0) (.lit 0) (.lit 0)
          "plinth" = [front, back, left, right] ∧
      left.length = Value.lit (20 - 0 - 0 - 2 * 15) ∧
      (20 - 0 - 0 - 2 * 15 : ℚ) < 0 :=
  ⟨_, _, _, _, rfl, rfl, by norm_num⟩

/-- Claim C10: the parameter namespace is the process-wide constant
`"params"`: `var n` always builds the qualified symbol `params.n` (there
is no namespace parameter), and `create_varset` always creates the
container under that same fixed name, whoever the caller is. -/
theorem params_namespace_fixed :
    (∀ n : String, var n = Value.formula (.sym ("params." ++ n))) ∧
    (∀ kwargs : List (String × ℚ), (create_varset kwargs).name = "params") ∧
    VARSET_NAME = "params" :=
  ⟨fun _ => rfl, fun _ => rfl, rfl⟩

end FreecadPanels
